import Mathlib

/-!
Verification of the normalization / classification / row-placement pipeline of
`backend/app/services/excel_data_service.py` (class `ExcelDataService`).

The Python code is shallowly embedded: Python runtime values that occur in the
pipeline (`None`, `str`, `int`) become the inductive `PyVal`; Python dicts with
string keys become ordered association lists (`PyDict`), with insertion-order
preserving update as in CPython; worksheet state becomes a list of rows of
cells; exceptions become `Except` / explicit error paths; the storage layer
(load / save of the workbook file) becomes an environment flag per operation
plus an instrumented result recording how often load and save ran.
-/

set_option maxHeartbeats 2000000

namespace ExcelDataService

/-- A Python runtime value as used by the pipeline: `None`, a `str`, or an `int`. -/
inductive PyVal where
  | none
  | str (s : String)
  | int (n : Int)
  deriving DecidableEq, Repr

/-- Python truthiness for the values of `PyVal` (`bool(x)`): `None` and `""` and
`0` are falsy, everything else truthy. -/
def truthy : PyVal → Bool
  | PyVal.none => false
  | PyVal.str s => s ≠ ""
  | PyVal.int n => n ≠ 0

/-- Python `str(x)` for the values of `PyVal`. -/
def pyStr : PyVal → String
  | PyVal.none => "None"
  | PyVal.str s => s
  | PyVal.int n => toString n

/-- Python `a or b`: `a` if truthy, else `b`. -/
def pyOr (a b : PyVal) : PyVal := if truthy a then a else b

/-- Python `s.lower()` on a `str` (kernel-reducible form of `String.toLower`). -/
def pyLowerStr (s : String) : String := ⟨s.data.map Char.toLower⟩

/-- Python `x.lower()`: defined on `str`, raises `AttributeError` on any other
value (modelled as `Except.error`). -/
def pyLower : PyVal → Except String String
  | PyVal.str s => Except.ok (pyLowerStr s)
  | _ => Except.error "AttributeError"

/-- Python `str.strip()` whitespace test, covering the ASCII whitespace and
the full-width space that occur in this pipeline's data. -/
def isPyWhitespace (c : Char) : Bool :=
  c = ' ' || c = '\t' || c = '\n' || c = '\r' || c = '\x0b' || c = '\x0c' || c = '　'

/-- Python `s.strip()`. -/
def pyStrip (s : String) : String :=
  ⟨((s.data.dropWhile isPyWhitespace).reverse.dropWhile isPyWhitespace).reverse⟩

/-- A string-keyed Python dict, as an association list in insertion order. -/
abbrev PyDict := List (String × PyVal)

/-- Dict lookup `d[k]` in a string-keyed association list (first binding wins; a
CPython dict has unique keys, so this is exact). -/
def alistGet? {α : Type} : List (String × α) → String → Option α
  | [], _ => Option.none
  | (k', v) :: t, k => if k' = k then some v else alistGet? t k

/-- Python `d.get(k, dflt)`. -/
def dictGetD (d : PyDict) (k : String) (dflt : PyVal) : PyVal := (alistGet? d k).getD dflt

/-- Python `k in d`. -/
def dictContains (d : PyDict) (k : String) : Bool := (alistGet? d k).isSome

/-- Python `d[k] = v`: replace in place if the key exists, else append —
CPython dicts preserve insertion order. -/
def alistSet {α : Type} : List (String × α) → String → α → List (String × α)
  | [], k, v => [(k, v)]
  | (k', v') :: t, k, v => if k' = k then (k, v) :: t else (k', v') :: alistSet t k v

/-- The key list of a dict, in insertion order (Python `list(d.keys())`). -/
def dictKeys {α : Type} (d : List (String × α)) : List String := d.map Prod.fst

@[simp] theorem dictKeys_nil {α : Type} : dictKeys ([] : List (String × α)) = [] := rfl

@[simp] theorem dictKeys_cons {α : Type} (p : String × α) (t : List (String × α)) :
    dictKeys (p :: t) = p.1 :: dictKeys t := rfl

theorem alistGet?_set_self {α : Type} (d : List (String × α)) (k : String) (v : α) :
    alistGet? (alistSet d k v) k = some v := by
  induction d with
  | nil => simp [alistSet, alistGet?]
  | cons p t ih =>
    obtain ⟨k', v'⟩ := p
    by_cases h : k' = k
    · simp [alistSet, alistGet?, h]
    · simp [alistSet, alistGet?, h, ih]

theorem alistGet?_set_ne {α : Type} (d : List (String × α)) (k k' : String) (v : α)
    (h : k' ≠ k) : alistGet? (alistSet d k v) k' = alistGet? d k' := by
  have h' : ¬ k = k' := fun hh => h hh.symm
  induction d with
  | nil => simp [alistSet, alistGet?, h']
  | cons p t ih =>
    obtain ⟨k₀, v₀⟩ := p
    by_cases h₀ : k₀ = k
    · subst h₀
      simp [alistSet, alistGet?, h']
    · simp [alistSet, h₀, alistGet?]
      by_cases h₁ : k₀ = k'
      · simp [h₁]
      · simp [h₁, ih]

theorem dictKeys_set_of_mem {α : Type} (d : List (String × α)) (k : String) (v : α)
    (h : k ∈ dictKeys d) : dictKeys (alistSet d k v) = dictKeys d := by
  induction d with
  | nil => simp at h
  | cons p t ih =>
    obtain ⟨k₀, v₀⟩ := p
    by_cases h₀ : k₀ = k
    · simp [alistSet, h₀]
    · rw [dictKeys_cons] at h
      rcases List.mem_cons.mp h with h | h
      · exact absurd h.symm h₀
      · simp [alistSet, h₀, ih h]

theorem dictKeys_set_of_not_mem {α : Type} (d : List (String × α)) (k : String) (v : α)
    (h : k ∉ dictKeys d) : dictKeys (alistSet d k v) = dictKeys d ++ [k] := by
  induction d with
  | nil => simp [alistSet]
  | cons p t ih =>
    obtain ⟨k₀, v₀⟩ := p
    rw [dictKeys_cons] at h
    have h₀ : ¬ k₀ = k := fun hh => h (List.mem_cons.mpr (Or.inl hh.symm))
    have ht : k ∉ dictKeys t := fun hh => h (List.mem_cons.mpr (Or.inr hh))
    simp [alistSet, h₀, ih ht]

theorem alistGet?_eq_none_of_not_mem_keys {α : Type} (d : List (String × α)) (k : String)
    (h : k ∉ dictKeys d) : alistGet? d k = Option.none := by
  induction d with
  | nil => simp [alistGet?]
  | cons p t ih =>
    obtain ⟨k₀, v₀⟩ := p
    rw [dictKeys_cons] at h
    have h₀ : ¬ k₀ = k := fun hh => h (List.mem_cons.mpr (Or.inl hh.symm))
    have ht : k ∉ dictKeys t := fun hh => h (List.mem_cons.mpr (Or.inr hh))
    simp [alistGet?, h₀, ih ht]

theorem not_mem_keys_of_alistGet?_eq_none {α : Type} (d : List (String × α)) (k : String)
    (h : alistGet? d k = Option.none) : k ∉ dictKeys d := by
  induction d with
  | nil => simp
  | cons p t ih =>
    obtain ⟨k₀, v₀⟩ := p
    by_cases h₀ : k₀ = k
    · simp [alistGet?, h₀] at h
    · simp [alistGet?, h₀] at h
      rw [dictKeys_cons]
      intro hmem
      rcases List.mem_cons.mp hmem with hh | hh
      · exact h₀ hh.symm
      · exact ih h hh

theorem dictKeys_foldl_set {α : Type} (f : String → α) (hs : List String) :
    ∀ acc : List (String × α), hs.Nodup → (∀ h ∈ hs, h ∉ dictKeys acc) →
      dictKeys (hs.foldl (fun m h => alistSet m h (f h)) acc) = dictKeys acc ++ hs := by
  induction hs with
  | nil => intro acc _ _; simp
  | cons x t ih =>
    intro acc hnd hdisj
    have hx : x ∉ dictKeys acc := hdisj x (List.mem_cons_self x t)
    have hstep : dictKeys (alistSet acc x (f x)) = dictKeys acc ++ [x] :=
      dictKeys_set_of_not_mem acc x (f x) hx
    have hnd' : t.Nodup := (List.nodup_cons.mp hnd).2
    have hxt : x ∉ t := (List.nodup_cons.mp hnd).1
    have hdisj' : ∀ h ∈ t, h ∉ dictKeys (alistSet acc x (f x)) := by
      intro h hmem
      rw [hstep]
      intro hin
      rcases List.mem_append.mp hin with hin | hin
      · exact hdisj h (List.mem_cons.mpr (Or.inr hmem)) hin
      · rcases List.mem_singleton.mp hin with rfl
        exact hxt hmem
    calc dictKeys ((x :: t).foldl (fun m h => alistSet m h (f h)) acc)
        = dictKeys (t.foldl (fun m h => alistSet m h (f h)) (alistSet acc x (f x))) := by
          simp [List.foldl_cons]
      _ = dictKeys (alistSet acc x (f x)) ++ t := ih _ hnd' hdisj'
      _ = dictKeys acc ++ x :: t := by rw [hstep]; simp

theorem alistGet?_foldl_set_not_mem {α : Type} (f : String → α) (hs : List String) :
    ∀ (acc : List (String × α)) (k : String), k ∉ hs →
      alistGet? (hs.foldl (fun m h => alistSet m h (f h)) acc) k = alistGet? acc k := by
  induction hs with
  | nil => intro acc k _; simp
  | cons x t ih =>
    intro acc k hk
    have hkx : k ≠ x := fun hh => hk (List.mem_cons.mpr (Or.inl hh))
    have hkt : k ∉ t := fun hh => hk (List.mem_cons.mpr (Or.inr hh))
    calc alistGet? ((x :: t).foldl (fun m h => alistSet m h (f h)) acc) k
        = alistGet? (t.foldl (fun m h => alistSet m h (f h)) (alistSet acc x (f x))) k := by
          simp [List.foldl_cons]
      _ = alistGet? (alistSet acc x (f x)) k := ih _ k hkt
      _ = alistGet? acc k := alistGet?_set_ne acc x k (f x) hkx

theorem alistGet?_foldl_set_mem {α : Type} (f : String → α) (hs : List String) :
    ∀ (acc : List (String × α)) (k : String), k ∈ hs → hs.Nodup →
      alistGet? (hs.foldl (fun m h => alistSet m h (f h)) acc) k = some (f k) := by
  induction hs with
  | nil => intro acc k hk; simp at hk
  | cons x t ih =>
    intro acc k hk hnd
    have hnd' : t.Nodup := (List.nodup_cons.mp hnd).2
    have hxt : x ∉ t := (List.nodup_cons.mp hnd).1
    rcases List.mem_cons.mp hk with rfl | hkt
    · calc alistGet? ((k :: t).foldl (fun m h => alistSet m h (f h)) acc) k
          = alistGet? (t.foldl (fun m h => alistSet m h (f h)) (alistSet acc k (f k))) k := by
            simp [List.foldl_cons]
        _ = alistGet? (alistSet acc k (f k)) k := alistGet?_foldl_set_not_mem f t _ k hxt
        _ = some (f k) := alistGet?_set_self acc k (f k)
    · calc alistGet? ((x :: t).foldl (fun m h => alistSet m h (f h)) acc) k
          = alistGet? (t.foldl (fun m h => alistSet m h (f h)) (alistSet acc x (f x))) k := by
            simp [List.foldl_cons]
        _ = some (f k) := ih _ k hkt hnd'

/-- First-match property of `List.find?`: if `p` holds at index `i` and at no
earlier index, `find?` returns the element at `i`. -/
theorem find?_of_first {α : Type} (p : α → Bool) :
    ∀ (l : List α) (i : Nat) (hi : i < l.length),
      p (l.get ⟨i, hi⟩) = true →
      (∀ j (hj : j < i), p (l.get ⟨j, Nat.lt_trans hj hi⟩) = false) →
      l.find? p = some (l.get ⟨i, hi⟩) := by
  intro l
  induction l with
  | nil => intro i hi; simp at hi
  | cons a t ih =>
    intro i hi hp hbefore
    cases i with
    | zero =>
      simp at hp
      simp [List.find?_cons_of_pos _ hp]
    | succ n =>
      have ha : p a = false := hbefore 0 (Nat.succ_pos n)
      have hn : n < t.length := Nat.lt_of_succ_lt_succ hi
      rw [List.find?_cons_of_neg _ (by simp [ha])]
      exact ih n hn hp (fun j hj => hbefore (j + 1) (Nat.succ_lt_succ hj))

/-- Converse direction: whatever `find?` returns is the first hit. -/
theorem find?_some_first {α : Type} (p : α → Bool) :
    ∀ (l : List α) (a : α), l.find? p = some a →
      ∃ i, ∃ hi : i < l.length, l.get ⟨i, hi⟩ = a ∧ p a = true ∧
        ∀ j (hj : j < i), p (l.get ⟨j, Nat.lt_trans hj hi⟩) = false := by
  intro l
  induction l with
  | nil => intro a ha; simp at ha
  | cons x t ih =>
    intro a ha
    by_cases hx : p x = true
    · rw [List.find?_cons_of_pos _ hx] at ha
      rcases Option.some_injective _ ha with rfl
      exact ⟨0, Nat.succ_pos _, rfl, hx, fun j hj => absurd hj (Nat.not_lt_zero j)⟩
    · have hx' : p x = false := by
        cases hpx : p x
        · rfl
        · exact absurd hpx hx
      rw [List.find?_cons_of_neg _ (by simp [hx'])] at ha
      rcases ih a ha with ⟨i, hi, hget, hpa, hbefore⟩
      refine ⟨i + 1, Nat.succ_lt_succ hi, hget, hpa, ?_⟩
      intro j hj
      cases j with
      | zero => simpa using hx'
      | succ m => exact hbefore m (Nat.lt_of_succ_lt_succ hj)

/-- The ordered 35-column list of `self.SHEET_HEADERS`. In the source the same
literal list is written out once per sheet, identical in content and order for
all sixteen sheets; it is defined once here and referenced per sheet below. -/
def STANDARD_HEADERS : List String :=
  ["カテゴリ", "管理番号", "タイトル", "文字数", "付属品", "ランク", "コメント",
   "素材", "色", "サイズ", "着丈", "　肩幅", "身幅", "袖丈", "梱包サイズ",
   "梱包記号", "美品", "ブランド", "フリー", "袖", "もの", "男女",
   "採寸1", "ラック", "金額", "股上", "股下", "ウエスト", "もも幅", "裾幅",
   "総丈", "ヒップ", "仕入先", "仕入日", "原価"]

/-- Table `self.SHEET_HEADERS`: the sixteen sheet names, each with its column list. -/
def SHEET_HEADERS : List (String × List String) :=
  [("トップス", STANDARD_HEADERS), ("パンツ", STANDARD_HEADERS),
   ("スカート", STANDARD_HEADERS), ("ワンピース", STANDARD_HEADERS),
   ("オールインワン", STANDARD_HEADERS), ("スカートスーツ", STANDARD_HEADERS),
   ("パンツスーツ", STANDARD_HEADERS), ("アンサンブル", STANDARD_HEADERS),
   ("靴", STANDARD_HEADERS), ("ブーツ", STANDARD_HEADERS),
   ("ベルト", STANDARD_HEADERS), ("ネクタイ縦横", STANDARD_HEADERS),
   ("帽子", STANDARD_HEADERS), ("バッグ", STANDARD_HEADERS),
   ("ネックレス", STANDARD_HEADERS), ("サングラス", STANDARD_HEADERS)]

/-- The sixteen sheet (category) names, in registration order. -/
def sheetNames : List String := dictKeys SHEET_HEADERS

/-- The `field_mappings` alias table of `map_data_to_sheet_headers`:
canonical column name → ordered list of accepted input keys. -/
def field_mappings : List (String × List String) :=
  [("カテゴリ", ["category", "カテゴリ"]),
   ("管理番号", ["management_number", "管理番号", "id"]),
   ("タイトル", ["title", "タイトル"]),
   ("文字数", ["character_count", "文字数"]),
   ("付属品", ["accessories", "付属品"]),
   ("日本サイズ", ["japanese_size", "日本サイズ"]),
   ("ランク", ["rank", "ランク", "condition_rank"]),
   ("コメント", ["comment", "コメント", "description"]),
   ("仕立て・収納", ["tailoring_storage", "仕立て・収納"]),
   ("素材", ["material", "素材"]),
   ("色", ["color", "色"]),
   ("サイズ", ["size", "サイズ"]),
   ("梱包サイズ", ["packaging_size", "梱包サイズ"]),
   ("梱包記号", ["packaging_symbol", "梱包記号"]),
   ("美品", ["excellent_condition", "美品"]),
   ("ブランド", ["brand", "ブランド"]),
   ("フリー", ["free_text", "フリー"]),
   ("袖", ["sleeve", "袖"]),
   ("もの", ["item_type", "もの", "product_type"]),
   ("男女", ["gender", "男女"]),
   ("ラック", ["rack", "ラック"]),
   ("仕入先", ["supplier", "仕入先"]),
   ("仕入日", ["purchase_date", "仕入日"]),
   ("原価", ["cost_price", "原価"]),
   ("金額", ["price", "金額", "amount"]),
   ("着丈", ["garment_length", "着丈"]),
   ("　肩幅", ["shoulder_width", "shoulder_width", "肩幅", "　肩幅"]),
   ("身幅", ["chest_width", "身幅"]),
   ("袖丈", ["sleeve_length", "袖丈"]),
   ("股上", ["rise", "股上"]),
   ("股下", ["inseam", "股下"]),
   ("ウエスト", ["waist", "ウエスト"]),
   ("もも幅", ["thigh_width", "もも幅"]),
   ("裾幅", ["hem_width", "裾幅"]),
   ("総丈", ["total_length", "総丈"]),
   ("ヒップ", ["hip", "ヒップ"]),
   ("採寸1", ["measurement1", "採寸1"]),
   ("採寸2", ["measurement2", "採寸2"])]

/-- The per-header value resolution of `map_data_to_sheet_headers`: direct
match on the header name first, else the alias list of `field_mappings` in
listed order (`break` on the first key present), else Python `None`. -/
def resolveField (data : PyDict) (header : String) : PyVal :=
  if dictContains data header then dictGetD data header PyVal.none
  else
    match alistGet? field_mappings header with
    | some keys =>
      match keys.find? (fun k => dictContains data k) with
      | some k => dictGetD data k PyVal.none
      | Option.none => PyVal.none
    | Option.none => PyVal.none

/-- Mapper `map_data_to_sheet_headers(data, sheet_name)`: one entry per header of the
target sheet, in header order; `{}` when the sheet is not in `SHEET_HEADERS`. -/
def map_data_to_sheet_headers (data : PyDict) (sheet_name : String) : PyDict :=
  match alistGet? SHEET_HEADERS sheet_name with
  | Option.none => []
  | some headers => headers.foldl (fun m h => alistSet m h (resolveField data h)) []

theorem standard_headers_nodup : STANDARD_HEADERS.Nodup := by decide

theorem alistGet?_of_const {α : Type} (v : α) :
    ∀ l : List (String × α), (∀ p ∈ l, p.2 = v) →
      ∀ k, k ∈ dictKeys l → alistGet? l k = some v := by
  intro l
  induction l with
  | nil => intro _ k hk; simp at hk
  | cons p t ih =>
    intro hall k hk
    obtain ⟨k₀, v₀⟩ := p
    by_cases h₀ : k₀ = k
    · have : v₀ = v := hall (k₀, v₀) (List.mem_cons_self _ _)
      simp [alistGet?, h₀, this]
    · rw [dictKeys_cons] at hk
      rcases List.mem_cons.mp hk with hh | hh
      · exact absurd hh.symm h₀
      · simp [alistGet?, h₀]
        exact ih (fun q hq => hall q (List.mem_cons.mpr (Or.inr hq))) k hh

/-- Every sheet registered in `SHEET_HEADERS` carries the standard column list. -/
theorem sheet_headers_lookup (cat : String) (hcat : cat ∈ sheetNames) :
    alistGet? SHEET_HEADERS cat = some STANDARD_HEADERS := by
  refine alistGet?_of_const STANDARD_HEADERS SHEET_HEADERS ?_ cat hcat
  intro p hp
  simp [SHEET_HEADERS] at hp
  rcases hp with hp | hp | hp | hp | hp | hp | hp | hp | hp | hp | hp | hp | hp | hp | hp | hp <;>
    simp [hp]

/-- The key set of the mapper's output for a registered sheet is exactly the
standard header list. -/
theorem keys_map_data (data : PyDict) (cat : String) (hcat : cat ∈ sheetNames) :
    dictKeys (map_data_to_sheet_headers data cat) = STANDARD_HEADERS := by
  rw [map_data_to_sheet_headers, sheet_headers_lookup cat hcat]
  have := dictKeys_foldl_set (resolveField data) STANDARD_HEADERS [] standard_headers_nodup
    (by intro h _ hh; simp at hh)
  simpa using this

/-- Looking up a registered header in the mapper's output yields exactly the
resolved value for that header. -/
theorem get_map_data (data : PyDict) (cat h : String) (hcat : cat ∈ sheetNames)
    (hh : h ∈ STANDARD_HEADERS) :
    alistGet? (map_data_to_sheet_headers data cat) h = some (resolveField data h) := by
  rw [map_data_to_sheet_headers, sheet_headers_lookup cat hcat]
  exact alistGet?_foldl_set_mem (resolveField data) STANDARD_HEADERS [] h hh standard_headers_nodup

/-- Table `self.category_keywords`: category name → keyword patterns, in registration
order; the patterns are literal substrings except for the `.*` separators in
the suit / set-up / ensemble patterns. -/
def category_keywords : List (String × List String) :=
  [("トップス", ["ブラウス", "シャツ", "tシャツ", "カットソー", "ニット", "セーター",
     "パーカー", "フリース", "ジャケット", "カーディガン", "ベスト",
     "タンクトップ", "キャミソール", "チュニック"]),
   ("パンツ", ["パンツ", "ズボン", "ジーンズ", "デニム", "チノパン", "スラックス",
     "レギンス", "ショートパンツ", "ハーフパンツ", "ワイドパンツ",
     "スキニー", "ボトムス", "トラウザー"]),
   ("スカート", ["スカート", "ミニスカート", "ロングスカート", "マキシスカート",
     "フレアスカート", "タイトスカート", "プリーツスカート"]),
   ("ワンピース", ["ワンピース", "ドレス", "マキシワンピース", "ミニワンピース",
     "シャツワンピース", "ニットワンピース"]),
   ("オールインワン", ["オールインワン", "サロペット", "オーバーオール", "ジャンプスーツ",
     "コンビネゾン", "つなぎ"]),
   ("スカートスーツ", ["スカートスーツ", "スーツ.*スカート", "セットアップ.*スカート"]),
   ("パンツスーツ", ["パンツスーツ", "スーツ.*パンツ", "セットアップ.*パンツ"]),
   ("アンサンブル", ["アンサンブル", "ツインセット", "セット.*ニット"]),
   ("靴", ["パンプス", "ヒール", "フラットシューズ", "革靴", "ローファー",
     "サンダル", "ミュール", "オックスフォード"]),
   ("ブーツ", ["ブーツ", "ロングブーツ", "ショートブーツ", "アンクルブーツ",
     "ニーハイブーツ", "ムートンブーツ"]),
   ("ベルト", ["ベルト", "レザーベルト", "チェーンベルト"]),
   ("ネクタイ縦横", ["ネクタイ", "タイ", "ボウタイ"]),
   ("帽子", ["帽子", "キャップ", "ハット", "ベレー帽", "ニット帽",
     "ビーニー", "麦わら帽子", "ハンチング"]),
   ("バッグ", ["バッグ", "ハンドバッグ", "ショルダーバッグ", "トートバッグ",
     "クラッチバッグ", "リュック", "バックパック", "ポーチ",
     "ウエストバッグ", "メッセンジャーバッグ"]),
   ("ネックレス", ["ネックレス", "チョーカー", "ペンダント", "チェーン"]),
   ("サングラス", ["サングラス", "メガネ", "眼鏡", "グラス"])]

/-- Default sheet `self.default_sheet`. -/
def default_sheet : String := "トップス"

/-- The suffix of `l` strictly after the first occurrence of `pat` as a
contiguous sublist, or `Option.none` when `pat` does not occur. -/
def dropAfterFirst (pat : List Char) : List Char → Option (List Char)
  | [] => if pat = [] then some [] else Option.none
  | c :: t =>
    if pat.isPrefixOf (c :: t) then some ((c :: t).drop pat.length)
    else dropAfterFirst pat t

/-- The literal segments occur in `l`, in order and disjointly: the semantics
of searching the regular expression `seg₀.*seg₁.*…` in a string. -/
def matchSegs : List (List Char) → List Char → Bool
  | [], _ => true
  | s :: rest, l =>
    match dropAfterFirst s l with
    | some l' => matchSegs rest l'
    | Option.none => false

/-- Split a pattern at each `.*` occurrence (Python `pat.split(".*")` for the
patterns of `category_keywords`, whose only regex metacharacters are these
separators). -/
def splitOnDotStar : List Char → List (List Char)
  | [] => [[]]
  | '.' :: '*' :: t => [] :: splitOnDotStar t
  | c :: t =>
    match splitOnDotStar t with
    | [] => [[c]]
    | h :: r => (c :: h) :: r

/-- Regex search `re.search(pat, s) is not None` for the patterns of `category_keywords`:
every pattern is a sequence of literal segments separated by `.*` (most have a
single segment), so the search succeeds exactly when the segments occur in
order in `s`. -/
def reSearch (pat s : String) : Bool :=
  matchSegs (splitOnDotStar pat.data) s.data

/-- One iteration test of the classifier's nested keyword loop: some keyword
of the category matches the search string. -/
def categoryMatches (s : String) (ck : String × List String) : Bool :=
  ck.2.any (fun kw => reSearch (pyLowerStr kw) s)

/-- Classifier `classify_product_category(title, product_data)`. The `title` is a `PyVal`
because callers pass `data.get(...)` results; `.lower()` raises
`AttributeError` (modelled as `Except.error`) on a non-`str` title or on a
truthy non-`str` `もの`/`product_type` hint. -/
def classify_product_category (title : PyVal) (product_data : PyDict) :
    Except String String := do
  let title_lower ← pyLower title
  let product_type := pyOr (dictGetD product_data "もの" (PyVal.str ""))
    (dictGetD product_data "product_type" (PyVal.str ""))
  let search ←
    if truthy product_type then do
      let p ← pyLower product_type
      pure (title_lower ++ " " ++ p)
    else pure title_lower
  match category_keywords.find? (categoryMatches search) with
  | some ck => pure ck.1
  | Option.none => pure default_sheet

/-- The search string built by the classifier when no exception occurs. -/
def searchTextOk (title : String) (product_data : PyDict) : String :=
  let t := pyLowerStr title
  match pyOr (dictGetD product_data "もの" (PyVal.str ""))
      (dictGetD product_data "product_type" (PyVal.str "")) with
  | PyVal.str s => if s ≠ "" then t ++ " " ++ pyLowerStr s else t
  | _ => t

/-- The classifier result on the exception-free domain. -/
def classifyOk (title : String) (product_data : PyDict) : String :=
  match category_keywords.find? (categoryMatches (searchTextOk title product_data)) with
  | some ck => ck.1
  | Option.none => default_sheet

/-- The `もの` / `product_type` hint resolved from the record is a string, or
is falsy (so that `.lower()` is never called on a non-string). -/
def hintOk (product_data : PyDict) : Bool :=
  match pyOr (dictGetD product_data "もの" (PyVal.str ""))
      (dictGetD product_data "product_type" (PyVal.str "")) with
  | PyVal.str _ => true
  | v => !truthy v

theorem classify_ok_eq (title : String) (product_data : PyDict)
    (h : hintOk product_data = true) :
    classify_product_category (PyVal.str title) product_data =
      Except.ok (classifyOk title product_data) := by
  rw [classify_product_category, classifyOk, searchTextOk]
  rcases hpt : pyOr (dictGetD product_data "もの" (PyVal.str ""))
      (dictGetD product_data "product_type" (PyVal.str "")) with _ | s | n
  · simp [pyLower, truthy]
    cases hfind : List.find? (categoryMatches (pyLowerStr title)) category_keywords <;>
      simp [Bind.bind, Except.bind, pure, Except.pure, hfind]
  · by_cases hs : s = ""
    · subst hs
      simp [pyLower, truthy]
      cases hfind : List.find? (categoryMatches (pyLowerStr title)) category_keywords <;>
        simp [Bind.bind, Except.bind, pure, Except.pure, hfind]
    · simp [pyLower, truthy, hs]
      cases hfind : List.find? (categoryMatches (pyLowerStr title ++ " " ++ pyLowerStr s))
          category_keywords <;>
        simp [Bind.bind, Except.bind, pure, Except.pure, hfind]
  · simp [hintOk, hpt, truthy] at h
    simp [pyLower, truthy, h]
    cases hfind : List.find? (categoryMatches (pyLowerStr title)) category_keywords <;>
      simp [Bind.bind, Except.bind, pure, Except.pure, hfind]

/-- Synthesizer `generate_measurement_text(data, sheet_name)`: category-dependent fragments
`"<label>：約<value>cm"` for each truthy measurement field, joined with a
full-width space; `""` for categories without synthesis. -/
def generate_measurement_text (data : PyDict) (sheet_name : String) : String :=
  let measurements : List String :=
    if sheet_name = "トップス" then
      (if truthy (dictGetD data "着丈" PyVal.none) then
        ["着丈：約" ++ pyStr (dictGetD data "着丈" PyVal.none) ++ "cm"] else [])
      ++ (if truthy (pyOr (dictGetD data "　肩幅" PyVal.none) (dictGetD data "肩幅" PyVal.none)) then
        ["肩幅：約" ++ pyStr (pyOr (dictGetD data "　肩幅" PyVal.none)
            (dictGetD data "肩幅" PyVal.none)) ++ "cm"] else [])
      ++ (if truthy (dictGetD data "身幅" PyVal.none) then
        ["身幅：約" ++ pyStr (dictGetD data "身幅" PyVal.none) ++ "cm"] else [])
      ++ (if truthy (dictGetD data "袖丈" PyVal.none) then
        ["袖丈：約" ++ pyStr (dictGetD data "袖丈" PyVal.none) ++ "cm"] else [])
    else if sheet_name = "パンツ" then
      (if truthy (dictGetD data "股上" PyVal.none) then
        ["股上：約" ++ pyStr (dictGetD data "股上" PyVal.none) ++ "cm"] else [])
      ++ (if truthy (dictGetD data "股下" PyVal.none) then
        ["股下：約" ++ pyStr (dictGetD data "股下" PyVal.none) ++ "cm"] else [])
      ++ (if truthy (dictGetD data "ウエスト" PyVal.none) then
        ["ウエスト：約" ++ pyStr (dictGetD data "ウエスト" PyVal.none) ++ "cm"] else [])
      ++ (if truthy (dictGetD data "もも幅" PyVal.none) then
        ["もも幅：約" ++ pyStr (dictGetD data "もも幅" PyVal.none) ++ "cm"] else [])
      ++ (if truthy (dictGetD data "裾幅" PyVal.none) then
        ["裾幅：約" ++ pyStr (dictGetD data "裾幅" PyVal.none) ++ "cm"] else [])
    else if sheet_name = "スカート" then
      (if truthy (dictGetD data "総丈" PyVal.none) then
        ["総丈：約" ++ pyStr (dictGetD data "総丈" PyVal.none) ++ "cm"] else [])
      ++ (if truthy (dictGetD data "ウエスト" PyVal.none) then
        ["ウエスト：約" ++ pyStr (dictGetD data "ウエスト" PyVal.none) ++ "cm"] else [])
      ++ (if truthy (dictGetD data "ヒップ" PyVal.none) then
        ["ヒップ：約" ++ pyStr (dictGetD data "ヒップ" PyVal.none) ++ "cm"] else [])
    else []
  String.intercalate "　" measurements

/-- The measurement-enrichment step shared by `add_data_to_excel` and
`bulk_add_data`: when the synthesized text is non-empty, assign it to `採寸1`,
and to `採寸2` unless `mapped_data.get('採寸2')` is already truthy. -/
def enrich_mapped_data (mapped : PyDict) (measurement_text : String) : PyDict :=
  if measurement_text ≠ "" then
    let m1 := alistSet mapped "採寸1" (PyVal.str measurement_text)
    if truthy (dictGetD m1 "採寸2" PyVal.none) then m1
    else alistSet m1 "採寸2" (PyVal.str measurement_text)
  else mapped

/-- The mapped row after the measurement-enrichment step, as computed by both
`add_data_to_excel` and `bulk_add_data` before the row is serialized. -/
def mappedRowAfterEnrichment (data : PyDict) (target_sheet : String) : PyDict :=
  enrich_mapped_data (map_data_to_sheet_headers data target_sheet)
    (generate_measurement_text data target_sheet)

/-- A worksheet: rows from row 1 downward, each a list of cell values; a cell
outside the stored grid reads as `None` (openpyxl semantics). -/
abbrev Sheet := List (List PyVal)

/-- Worksheet `ws.max_row`. -/
def maxRow (ws : Sheet) : Nat := ws.length

/-- Cell read `ws.cell(row=r, column=c).value` (1-based indices). -/
def cellValue (ws : Sheet) (r c : Nat) : PyVal :=
  (((ws.get? (r - 1)).getD []).get? (c - 1)).getD PyVal.none

/-- Blank test `cell_value is None or str(cell_value).strip() == ""`. -/
def cellBlank : PyVal → Bool
  | PyVal.none => true
  | v => pyStrip (pyStr v) == ""

/-- The local `is_row_empty(row_num, num_columns)` of `add_data_to_excel` /
`bulk_add_data`: every cell in columns `1..num_columns` of the row is `None`
or blank after strip. -/
def is_row_empty (ws : Sheet) (row_num num_columns : Nat) : Bool :=
  (List.range num_columns).all (fun j => cellBlank (cellValue ws row_num (j + 1)))

/-- The scan `for row in range(2, ws.max_row + 1)` looking for the first empty
row, with an explicit iteration budget (`fuel` = number of rows left to try,
starting row `r`). -/
def findEmptyFrom (ws : Sheet) (num_columns : Nat) : Nat → Nat → Option Nat
  | _, 0 => Option.none
  | r, fuel + 1 =>
    if is_row_empty ws r num_columns then some r
    else findEmptyFrom ws num_columns (r + 1) fuel

/-- The placement rule of `add_data_to_excel` / `bulk_add_data`: the first row
in `2..max_row` whose first `num_columns` cells are all blank, else
`max_row + 1`. -/
def findTargetRow (ws : Sheet) (num_columns : Nat) : Nat :=
  (findEmptyFrom ws num_columns 2 (maxRow ws - 1)).getD (maxRow ws + 1)

theorem findEmptyFrom_some (ws : Sheet) (W : Nat) :
    ∀ (fuel r t : Nat), findEmptyFrom ws W r fuel = some t →
      r ≤ t ∧ t < r + fuel ∧ is_row_empty ws t W = true ∧
      ∀ r', r ≤ r' → r' < t → is_row_empty ws r' W = false := by
  intro fuel
  induction fuel with
  | zero => intro r t h; simp [findEmptyFrom] at h
  | succ n ih =>
    intro r t h
    rw [findEmptyFrom] at h
    by_cases hemp : is_row_empty ws r W = true
    · rw [if_pos hemp] at h
      rcases Option.some_injective _ h with rfl
      exact ⟨Nat.le_refl _, by omega, hemp, fun r' h₁ h₂ => absurd (Nat.lt_of_le_of_lt h₁ h₂)
        (Nat.lt_irrefl _)⟩
    · rw [if_neg hemp] at h
      rcases ih (r + 1) t h with ⟨h₁, h₂, h₃, h₄⟩
      refine ⟨by omega, by omega, h₃, ?_⟩
      intro r' hr₁ hr₂
      by_cases hr : r' = r
      · subst hr
        exact Bool.eq_false_iff.mpr hemp
      · exact h₄ r' (by omega) hr₂

theorem findEmptyFrom_none (ws : Sheet) (W : Nat) :
    ∀ (fuel r : Nat), findEmptyFrom ws W r fuel = Option.none →
      ∀ r', r ≤ r' → r' < r + fuel → is_row_empty ws r' W = false := by
  intro fuel
  induction fuel with
  | zero => intro r _ r' h₁ h₂; omega
  | succ n ih =>
    intro r h r' h₁ h₂
    rw [findEmptyFrom] at h
    by_cases hemp : is_row_empty ws r W = true
    · rw [if_pos hemp] at h
      exact Option.noConfusion h
    · rw [if_neg hemp] at h
      by_cases hr : r' = r
      · subst hr
        exact Bool.eq_false_iff.mpr hemp
      · exact ih (r + 1) h r' (by omega) (by omega)

/-- Serialization `mapped_data.get(header, '')` followed by the `None → ''` conversion: the
Row Writer's serialization of one cell at write-preparation time. -/
def serializeCell (mapped : PyDict) (header : String) : PyVal :=
  let v := dictGetD mapped header (PyVal.str "")
  if v = PyVal.none then PyVal.str "" else v

/-- Header list `[cell.value for cell in ws[1] if cell.value]`: the truthy cell values of
the header row. -/
def rowOneHeaders (ws : Sheet) : List PyVal :=
  ((ws.get? 0).getD []).filter (fun v => truthy v)

/-- Serialization of one cell against a header-row value: a non-string header
value can never match a key of the string-keyed dict, so `get` returns the
default `''`. -/
def serializeCellAt (mapped : PyDict) (h : PyVal) : PyVal :=
  match h with
  | PyVal.str k => serializeCell mapped k
  | _ => PyVal.str ""

/-- Extend a list to length at least `n` with copies of `x`. -/
def padTo {α : Type} (l : List α) (n : Nat) (x : α) : List α :=
  l ++ List.replicate (n - l.length) x

/-- Cell write `ws.cell(row=r, column=c, value=v)` (1-based), materializing missing rows
and cells as `None` the way openpyxl does. -/
def setCell (ws : Sheet) (r c : Nat) (v : PyVal) : Sheet :=
  let ws' := padTo ws r []
  ws'.set (r - 1) ((padTo ((ws'.get? (r - 1)).getD []) c PyVal.none).set (c - 1) v)

/-- Loop `for col, value in enumerate(row_data, 1): ws.cell(row=target_row, column=col, value=value)`. -/
def writeRowAux : Sheet → Nat → Nat → List PyVal → Sheet
  | ws, _, _, [] => ws
  | ws, r, c, v :: t => writeRowAux (setCell ws r c v) r (c + 1) t

/-- Write a prepared row into the target row, column 1 onward. -/
def writeRow (ws : Sheet) (r : Nat) (vals : List PyVal) : Sheet :=
  writeRowAux ws r 1 vals

/-- The workbook held in memory between load and save: sheet name → sheet. -/
abbrev Workbook := List (String × Sheet)

/-- One iteration of the `for i, data in enumerate(data_list)` loop body of
`bulk_add_data`: returns the updated in-memory workbook, whether the record
succeeded, and the error message appended on failure. The per-record
`except Exception` branch catches the `AttributeError` the classifier can
raise. -/
def processRecord (book : Workbook) (i : Nat) (data : PyDict) :
    Workbook × Bool × Option String :=
  let title := pyOr (dictGetD data "タイトル" (PyVal.str ""))
    (dictGetD data "title" (PyVal.str ""))
  if ¬ truthy title then
    (book, false, some ("Row " ++ toString (i + 1) ++ ": Title is required for classification"))
  else
    match classify_product_category title data with
    | Except.error e =>
      (book, false, some ("Row " ++ toString (i + 1) ++ ": Unexpected error - " ++ e))
    | Except.ok target_sheet =>
      let mapped := map_data_to_sheet_headers data target_sheet
      if mapped = [] then
        (book, false, some ("Row " ++ toString (i + 1) ++ ": Failed to map data for sheet: "
          ++ target_sheet))
      else
        let enriched := enrich_mapped_data mapped (generate_measurement_text data target_sheet)
        match alistGet? book target_sheet with
        | Option.none =>
          (book, false, some ("Row " ++ toString (i + 1) ++ ": Sheet '" ++ target_sheet
            ++ "' not found in workbook"))
        | some ws =>
          let row_data := (rowOneHeaders ws).map (serializeCellAt enriched)
          let target_row := findTargetRow ws row_data.length
          (alistSet book target_sheet (writeRow ws target_row row_data), true, Option.none)

/-- The whole record loop of `bulk_add_data`: success count, failure count,
error messages in order, and the final in-memory workbook. -/
def bulkLoop : Workbook → Nat → List PyDict → Nat × Nat × List String × Workbook
  | book, _, [] => (0, 0, [], book)
  | book, i, d :: rest =>
    let step := processRecord book i d
    let next := bulkLoop step.1 (i + 1) rest
    if step.2.1 then (next.1 + 1, next.2.1, next.2.2.1, next.2.2.2)
    else (next.1, next.2.1 + 1, step.2.2.getD "" :: next.2.2.1, next.2.2.2)

/-- The storage layer seen by one `bulk_add_data` call: the stored workbook
file, and whether `load_workbook` and `book.save` succeed or raise. -/
structure StorageEnv where
  stored : Workbook
  loadOk : Bool
  saveOk : Bool
  deriving DecidableEq, Repr

/-- The observable outcome of one `bulk_add_data` call: the returned triple
plus storage-level instrumentation (how many loads and save attempts ran, how
many saves succeeded, and the stored file afterwards). -/
structure BulkResult where
  success_count : Nat
  failure_count : Nat
  error_messages : List String
  loads : Nat
  saveAttempts : Nat
  saves : Nat
  stored : Workbook
  deriving DecidableEq, Repr

/-- Batch entry point `bulk_add_data(data_list)`: empty list short-circuits before any storage
access; otherwise load once, run the loop, save once iff at least one record
succeeded; a storage error from load or save lands in the outer `except`
branch, which appends one critical message, adds `len(data_list)` to the
failure count and zeroes the success count. -/
def bulk_add_data (env : StorageEnv) (data_list : List PyDict) : BulkResult :=
  if data_list = [] then
    ⟨0, 0, [], 0, 0, 0, env.stored⟩
  else if ¬ env.loadOk then
    ⟨0, 0 + data_list.length, ["Critical error during bulk operation: storage error"],
      1, 0, 0, env.stored⟩
  else
    let res := bulkLoop env.stored 0 data_list
    if 0 < res.1 then
      if env.saveOk then ⟨res.1, res.2.1, res.2.2.1, 1, 1, 1, res.2.2.2⟩
      else
        ⟨0, res.2.1 + data_list.length,
          res.2.2.1 ++ ["Critical error during bulk operation: storage error"],
          1, 1, 0, env.stored⟩
    else ⟨res.1, res.2.1, res.2.2.1, 1, 0, 0, env.stored⟩

/-- Loop invariant: every record contributes to exactly one of the two
counters, and every failed record appends exactly one error message. -/
theorem bulkLoop_counts (dl : List PyDict) :
    ∀ (book : Workbook) (i : Nat),
      (bulkLoop book i dl).1 + (bulkLoop book i dl).2.1 = dl.length ∧
      (bulkLoop book i dl).2.2.1.length = (bulkLoop book i dl).2.1 := by
  induction dl with
  | nil => intro book i; simp [bulkLoop]
  | cons d rest ih =>
    intro book i
    rw [bulkLoop]
    rcases ih (processRecord book i d).1 (i + 1) with ⟨h₁, h₂⟩
    by_cases hok : (processRecord book i d).2.1 = true
    · simp only [hok, if_true, List.length_cons]
      exact ⟨by omega, h₂⟩
    · simp only [Bool.not_eq_true] at hok
      simp only [hok, Bool.false_eq_true, if_false, List.length_cons]
      exact ⟨by omega, by simp [h₂]⟩

/-- The alias list `field_mappings` holds for a canonical column name (empty
when the column has no alias entry). -/
def aliasesOf (header : String) : List String := (alistGet? field_mappings header).getD []

/-- C3: for every input record (any string-keyed mapping, including the empty
one) and every one of the sixteen categories, `map_data_to_sheet_headers`
returns a mapping whose key set is exactly that category's 35 schema column
names — no missing keys, no extra keys. -/
theorem C3_mapped_keys_exact (data : PyDict) (cat : String) (hcat : cat ∈ sheetNames) :
    dictKeys (map_data_to_sheet_headers data cat) = STANDARD_HEADERS ∧
    STANDARD_HEADERS.length = 35 ∧ sheetNames.length = 16 :=
  ⟨keys_map_data data cat hcat, by decide, by decide⟩

/-- C3 witness: the empty record mapped against the first registered category. -/
theorem C3_mapped_keys_exact_witness :
    dictKeys (map_data_to_sheet_headers [] "トップス") = STANDARD_HEADERS ∧
    STANDARD_HEADERS.length = 35 ∧ sheetNames.length = 16 :=
  C3_mapped_keys_exact [] "トップス" (by decide)

/-- C9: when the record binds the canonical column name itself, the Field
Mapper binds the column to that value — the direct match is tried before any
alias-table lookup, so an alias with a different value cannot win. -/
theorem C9_direct_match_precedence (data : PyDict) (cat h : String) (v : PyVal)
    (hcat : cat ∈ sheetNames) (hh : h ∈ STANDARD_HEADERS)
    (hv : alistGet? data h = some v) :
    alistGet? (map_data_to_sheet_headers data cat) h = some v := by
  rw [get_map_data data cat h hcat hh]
  simp [resolveField, dictContains, dictGetD, hv]

/-- C9 witness: a record holding both the canonical name `色` (value `赤`) and
its alias `color` (value `red`); the canonical value wins. -/
theorem C9_direct_match_precedence_witness :
    alistGet? (map_data_to_sheet_headers
      [("色", PyVal.str "赤"), ("color", PyVal.str "red")] "トップス") "色" =
      some (PyVal.str "赤") :=
  C9_direct_match_precedence [("色", PyVal.str "赤"), ("color", PyVal.str "red")]
    "トップス" "色" (PyVal.str "赤") (by decide) (by decide) (by decide)

/-- C7: a column with no direct and no alias match is bound to Python `None`
in the mapped row — not to the empty string (`PyVal.none ≠ PyVal.str ""`) —
and only the Row Writer serialization (`serializeCell`) turns that `None`
into `''` when the row data is prepared for the cell write. -/
theorem C7_unmatched_column_null (data : PyDict) (cat h : String)
    (hcat : cat ∈ sheetNames) (hh : h ∈ STANDARD_HEADERS)
    (hdir : alistGet? data h = Option.none)
    (halias : ∀ a ∈ aliasesOf h, alistGet? data a = Option.none) :
    alistGet? (map_data_to_sheet_headers data cat) h = some PyVal.none ∧
    PyVal.none ≠ PyVal.str "" ∧
    serializeCell (map_data_to_sheet_headers data cat) h = PyVal.str "" := by
  have hres : resolveField data h = PyVal.none := by
    rw [resolveField]
    have hc : dictContains data h = false := by rw [dictContains, hdir]; rfl
    rw [if_neg (by simp [hc])]
    cases hfm : alistGet? field_mappings h with
    | none => rfl
    | some keys =>
      have hfind : keys.find? (fun k => dictContains data k) = Option.none := by
        rw [List.find?_eq_none]
        intro a hmem
        have ha := halias a (by rw [aliasesOf, hfm]; exact hmem)
        simp [dictContains, ha]
      simp only [hfind]
  have hget : alistGet? (map_data_to_sheet_headers data cat) h = some PyVal.none := by
    rw [get_map_data data cat h hcat hh, hres]
  refine ⟨hget, by decide, ?_⟩
  rw [serializeCell, dictGetD, hget]
  rfl

/-- C7 witness: a record with only an unrelated key; the column `色` (aliases
`color`, `色`) is unmatched, mapped to `None`, and serialized to `''`. -/
theorem C7_unmatched_column_null_witness :
    alistGet? (map_data_to_sheet_headers [("title", PyVal.str "x")] "トップス") "色" =
      some PyVal.none ∧
    PyVal.none ≠ PyVal.str "" ∧
    serializeCell (map_data_to_sheet_headers [("title", PyVal.str "x")] "トップス") "色" =
      PyVal.str "" :=
  C7_unmatched_column_null [("title", PyVal.str "x")] "トップス" "色"
    (by decide) (by decide) (by decide) (by decide)

/-- A record whose title classifies to トップス, with a measurement field and
an explicitly supplied secondary measurement value `採寸2 = "55cm"`. -/
def c5record : PyDict :=
  [("タイトル", PyVal.str "シャツ"), ("着丈", PyVal.str "66"), ("採寸2", PyVal.str "55cm")]

/-- C5 counterexample: the input supplies a truthy `採寸2` and synthesis is
non-empty, yet the enriched row binds `採寸2` to the synthesized text and not
to the supplied value — the supplied secondary measurement is displaced,
because no sheet schema contains a `採寸2` column, so the mapper never carries
the supplied value into the mapped row and the guard `not
mapped_data.get('採寸2')` always passes. -/
theorem C5_secondary_overwrite_counterexample :
    classify_product_category (PyVal.str "シャツ") c5record = Except.ok "トップス" ∧
    truthy (dictGetD c5record "採寸2" PyVal.none) = true ∧
    generate_measurement_text c5record "トップス" ≠ "" ∧
    alistGet? (mappedRowAfterEnrichment c5record "トップス") "採寸2" =
      some (PyVal.str (generate_measurement_text c5record "トップス")) ∧
    alistGet? (mappedRowAfterEnrichment c5record "トップス") "採寸2" ≠
      some (PyVal.str "55cm") :=
  ⟨rfl, by decide⟩

/-- C5 amended: when synthesis yields a non-empty string it is assigned to
`採寸1`, and (because no schema contains a `採寸2` column, so the mapped row's
`採寸2` entry is always empty at enrichment time) it is always also assigned
to `採寸2`; an input-supplied secondary measurement value is dropped by the
mapper and therefore does not survive enrichment. -/
theorem C5_enrichment_assignment (data : PyDict) (cat : String)
    (hcat : cat ∈ sheetNames) (hmt : generate_measurement_text data cat ≠ "") :
    alistGet? (mappedRowAfterEnrichment data cat) "採寸1" =
      some (PyVal.str (generate_measurement_text data cat)) ∧
    alistGet? (mappedRowAfterEnrichment data cat) "採寸2" =
      some (PyVal.str (generate_measurement_text data cat)) := by
  have hkeys := keys_map_data data cat hcat
  have h2none : alistGet? (map_data_to_sheet_headers data cat) "採寸2" = Option.none := by
    apply alistGet?_eq_none_of_not_mem_keys
    rw [hkeys]
    decide
  rw [mappedRowAfterEnrichment, enrich_mapped_data, if_pos hmt]
  have h21 : alistGet? (alistSet (map_data_to_sheet_headers data cat) "採寸1"
      (PyVal.str (generate_measurement_text data cat))) "採寸2" = Option.none := by
    rw [alistGet?_set_ne _ _ _ _ (by decide)]
    exact h2none
  have htr : truthy (dictGetD (alistSet (map_data_to_sheet_headers data cat) "採寸1"
      (PyVal.str (generate_measurement_text data cat))) "採寸2" PyVal.none) = false := by
    rw [dictGetD, h21]
    rfl
  rw [if_neg (by simp [htr])]
  constructor
  · rw [alistGet?_set_ne _ _ _ _ (by decide), alistGet?_set_self]
  · rw [alistGet?_set_self]

/-- C5 witness: the amended enrichment rule at the concrete record. -/
theorem C5_enrichment_assignment_witness :
    alistGet? (mappedRowAfterEnrichment c5record "トップス") "採寸1" =
      some (PyVal.str (generate_measurement_text c5record "トップス")) ∧
    alistGet? (mappedRowAfterEnrichment c5record "トップス") "採寸2" =
      some (PyVal.str (generate_measurement_text c5record "トップス")) :=
  C5_enrichment_assignment c5record "トップス" (by decide) (by decide)

/-- A record whose synthesized measurement text is non-empty. -/
def c6record : PyDict := [("タイトル", PyVal.str "シャツ"), ("着丈", PyVal.str "66")]

/-- C6 counterexample: enrichment does not preserve the key-set invariant —
when the synthesized text is non-empty, the guarded assignment appends the
key `採寸2`, which is outside the 35-column schema, so
`keys(MappedRow) == columns(CategorySchema)` fails after enrichment. -/
theorem C6_keys_preservation_counterexample :
    generate_measurement_text c6record "トップス" ≠ "" ∧
    dictKeys (mappedRowAfterEnrichment c6record "トップス") ≠ STANDARD_HEADERS ∧
    dictKeys (mappedRowAfterEnrichment c6record "トップス") =
      STANDARD_HEADERS ++ ["採寸2"] := by decide

/-- C6 amended: after enrichment the key set equals the schema columns when no
synthesis happened, and the schema columns plus the single extra key `採寸2`
when the synthesized text is non-empty; every column other than `採寸1` and
`採寸2` is left exactly as the Field Mapper produced it. -/
theorem C6_enrich_keys (data : PyDict) (cat : String) (hcat : cat ∈ sheetNames) :
    dictKeys (mappedRowAfterEnrichment data cat) =
      (if generate_measurement_text data cat = "" then STANDARD_HEADERS
       else STANDARD_HEADERS ++ ["採寸2"]) ∧
    ∀ h : String, h ≠ "採寸1" → h ≠ "採寸2" →
      alistGet? (mappedRowAfterEnrichment data cat) h =
        alistGet? (map_data_to_sheet_headers data cat) h := by
  have hkeys := keys_map_data data cat hcat
  by_cases hmt : generate_measurement_text data cat = ""
  · rw [mappedRowAfterEnrichment, enrich_mapped_data, if_neg (by simp [hmt])]
    exact ⟨by rw [if_pos hmt]; exact hkeys, fun h _ _ => rfl⟩
  · have h2none : alistGet? (map_data_to_sheet_headers data cat) "採寸2" = Option.none := by
      apply alistGet?_eq_none_of_not_mem_keys
      rw [hkeys]
      decide
    rw [mappedRowAfterEnrichment, enrich_mapped_data, if_pos hmt]
    have h21 : alistGet? (alistSet (map_data_to_sheet_headers data cat) "採寸1"
        (PyVal.str (generate_measurement_text data cat))) "採寸2" = Option.none := by
      rw [alistGet?_set_ne _ _ _ _ (by decide)]
      exact h2none
    have htr : truthy (dictGetD (alistSet (map_data_to_sheet_headers data cat) "採寸1"
        (PyVal.str (generate_measurement_text data cat))) "採寸2" PyVal.none) = false := by
      rw [dictGetD, h21]
      rfl
    rw [if_neg (by simp [htr])]
    constructor
    · rw [if_neg hmt]
      have hk1 : dictKeys (alistSet (map_data_to_sheet_headers data cat) "採寸1"
          (PyVal.str (generate_measurement_text data cat))) = STANDARD_HEADERS := by
        rw [dictKeys_set_of_mem _ _ _ (by rw [hkeys]; decide)]
        exact hkeys
      rw [dictKeys_set_of_not_mem _ _ _ (by rw [hk1]; decide), hk1]
    · intro h h1 h2
      rw [alistGet?_set_ne _ _ _ _ h2, alistGet?_set_ne _ _ _ _ h1]

/-- C6 witness: the amended key-set rule at the concrete record. -/
theorem C6_enrich_keys_witness :
    dictKeys (mappedRowAfterEnrichment c6record "トップス") =
      (if generate_measurement_text c6record "トップス" = "" then STANDARD_HEADERS
       else STANDARD_HEADERS ++ ["採寸2"]) :=
  (C6_enrich_keys c6record "トップス" (by decide)).1

/-- C4 counterexample: the classifier is not total on all hint records — a
truthy non-string `もの` hint reaches `product_type.lower()` and raises
`AttributeError`, so no category is returned. -/
theorem C4_totality_counterexample :
    ¬ ∃ c, classify_product_category (PyVal.str "シャツ") [("もの", PyVal.int 5)] =
      Except.ok c := by
  rintro ⟨c, hc⟩
  rw [show classify_product_category (PyVal.str "シャツ") [("もの", PyVal.int 5)] =
      Except.error "AttributeError" from rfl] at hc
  exact Except.noConfusion hc

/-- C4 amended: for every title string and every hint record whose
`もの`/`product_type` hint is a string or falsy, the classifier is pure and
total, returns one of the sixteen categories, returns the default トップス if
no keyword pattern matches the lowercased title-plus-hint search string, and
otherwise returns the first category in registration order that has a matching
keyword pattern (so a title with keywords of two categories resolves to the
category scanned first). -/
theorem C4_classifier_first_match (title : String) (pd : PyDict) (h : hintOk pd = true) :
    classify_product_category (PyVal.str title) pd = Except.ok (classifyOk title pd) ∧
    classifyOk title pd ∈ sheetNames ∧
    ((∀ ck ∈ category_keywords, categoryMatches (searchTextOk title pd) ck = false) →
      classifyOk title pd = default_sheet) ∧
    (∀ i, ∀ hi : i < category_keywords.length,
      categoryMatches (searchTextOk title pd) (category_keywords.get ⟨i, hi⟩) = true →
      (∀ j, ∀ hj : j < i,
        categoryMatches (searchTextOk title pd)
          (category_keywords.get ⟨j, Nat.lt_trans hj hi⟩) = false) →
      classifyOk title pd = (category_keywords.get ⟨i, hi⟩).1) := by
  refine ⟨classify_ok_eq title pd h, ?_, ?_, ?_⟩
  · rw [classifyOk]
    cases hfind : category_keywords.find? (categoryMatches (searchTextOk title pd)) with
    | none => decide
    | some ck =>
      have hmem : ck ∈ category_keywords := List.mem_of_find?_eq_some hfind
      have : ck.1 ∈ dictKeys category_keywords := List.mem_map_of_mem Prod.fst hmem
      have hnames : dictKeys category_keywords = sheetNames := by decide
      rw [hnames] at this
      simpa using this
  · intro hall
    rw [classifyOk]
    have hfind : category_keywords.find? (categoryMatches (searchTextOk title pd)) =
        Option.none := by
      rw [List.find?_eq_none]
      intro ck hmem
      simp [hall ck hmem]
    rw [hfind]
  · intro i hi hp hbefore
    rw [classifyOk, find?_of_first (categoryMatches (searchTextOk title pd))
      category_keywords i hi hp hbefore]

/-- C4 witness: `"スカート パンツ"` carries the keywords of both スカート and
パンツ; パンツ is scanned first in registration order and wins, and the
classifier returns it without error. -/
theorem C4_classifier_first_match_witness :
    classify_product_category (PyVal.str "スカート パンツ") [] =
      Except.ok (classifyOk "スカート パンツ" []) ∧
    classifyOk "スカート パンツ" [] = "パンツ" :=
  ⟨(C4_classifier_first_match "スカート パンツ" [] (by decide)).1, by decide⟩

/-- A sheet with a header row and data rows [full, full, empty, full]: the
empty row sits at row index 4 while `max_row` is 5. -/
def placementExample : Sheet :=
  [[PyVal.str "h1", PyVal.str "h2", PyVal.str "h3"],
   [PyVal.str "a", PyVal.str "b", PyVal.str "c"],
   [PyVal.str "d", PyVal.str "e", PyVal.str "f"],
   [PyVal.none, PyVal.str "", PyVal.str "  "],
   [PyVal.str "g", PyVal.str "h", PyVal.str "i"]]

/-- C2: the row writer targets the lowest row index `r ≥ 2` whose first `W`
cells are all null or blank-after-trim; when no such row exists among rows
`2..max_row` it targets `max_row + 1`; and on data rows [full, full, empty,
full] the empty row's index 4 is chosen, not `max_row + 1 = 6`. -/
theorem C2_placement (ws : Sheet) (W : Nat) (hws : 1 ≤ maxRow ws) :
    2 ≤ findTargetRow ws W ∧
    ((findTargetRow ws W ≤ maxRow ws ∧
      is_row_empty ws (findTargetRow ws W) W = true ∧
      ∀ r, 2 ≤ r → r < findTargetRow ws W → is_row_empty ws r W = false) ∨
     (findTargetRow ws W = maxRow ws + 1 ∧
      ∀ r, 2 ≤ r → r ≤ maxRow ws → is_row_empty ws r W = false)) ∧
    findTargetRow placementExample 3 = 4 ∧
    maxRow placementExample = 5 := by
  have hmain : 2 ≤ findTargetRow ws W ∧
      ((findTargetRow ws W ≤ maxRow ws ∧
        is_row_empty ws (findTargetRow ws W) W = true ∧
        ∀ r, 2 ≤ r → r < findTargetRow ws W → is_row_empty ws r W = false) ∨
       (findTargetRow ws W = maxRow ws + 1 ∧
        ∀ r, 2 ≤ r → r ≤ maxRow ws → is_row_empty ws r W = false)) := by
    cases hf : findEmptyFrom ws W 2 (maxRow ws - 1) with
    | none =>
      have htr : findTargetRow ws W = maxRow ws + 1 := by
        rw [findTargetRow, hf]
        rfl
      refine ⟨by omega, Or.inr ⟨htr, ?_⟩⟩
      intro r h₁ h₂
      exact findEmptyFrom_none ws W (maxRow ws - 1) 2 hf r h₁ (by omega)
    | some t =>
      have htr : findTargetRow ws W = t := by
        rw [findTargetRow, hf]
        rfl
      rcases findEmptyFrom_some ws W (maxRow ws - 1) 2 t hf with ⟨ha, hb, hc, hd⟩
      rw [htr]
      exact ⟨ha, Or.inl ⟨by omega, hc, fun r h₁ h₂ => hd r h₁ h₂⟩⟩
  exact ⟨hmain.1, hmain.2, by decide, by decide⟩

/-- C2 witness: the placement rule applied to the concrete example sheet. -/
theorem C2_placement_witness :
    2 ≤ findTargetRow placementExample 3 ∧ findTargetRow placementExample 3 = 4 :=
  ⟨(C2_placement placementExample 3 (by decide)).1,
    (C2_placement placementExample 3 (by decide)).2.2.1⟩

/-- C1 counterexample: when loading the workbook raises a storage error on a
two-record batch, the `except` branch sets `failure_count` to 2 but appends
only the single critical message, so `len(error_messages) == failure_count`
fails on the storage-error path. -/
theorem C1_accounting_counterexample :
    ¬ ((bulk_add_data ⟨[], false, true⟩ [[], []]).success_count +
        (bulk_add_data ⟨[], false, true⟩ [[], []]).failure_count = 2 ∧
       (bulk_add_data ⟨[], false, true⟩ [[], []]).error_messages.length =
        (bulk_add_data ⟨[], false, true⟩ [[], []]).failure_count) := by decide

/-- C1 amended: on every execution where loading and saving raise no storage
error, `success_count + failure_count == N` and
`len(error_messages) == failure_count` for any list of N records, malformed
ones included; on a storage error the success count is zeroed, N is added to
the failure count and a single critical message is appended, so the
message-count identity (and, after partial processing, the sum identity) can
fail there. -/
theorem C1_batch_accounting (env : StorageEnv) (dl : List PyDict)
    (hload : env.loadOk = true) (hsave : env.saveOk = true) :
    (bulk_add_data env dl).success_count + (bulk_add_data env dl).failure_count =
      dl.length ∧
    (bulk_add_data env dl).error_messages.length =
      (bulk_add_data env dl).failure_count := by
  by_cases hdl : dl = []
  · subst hdl
    exact ⟨rfl, rfl⟩
  · rcases bulkLoop_counts dl env.stored 0 with ⟨h₁, h₂⟩
    rw [bulk_add_data, if_neg hdl, if_neg (by simp [hload])]
    by_cases hs : 0 < (bulkLoop env.stored 0 dl).1
    · simp only [hs, if_true, hsave]
      exact ⟨h₁, h₂⟩
    · simp only [hs, if_false]
      exact ⟨h₁, h₂⟩

/-- C1 witness: a storage-error-free batch of one malformed (title-less)
record. -/
theorem C1_batch_accounting_witness :
    (bulk_add_data ⟨[], true, true⟩ [[]]).success_count +
      (bulk_add_data ⟨[], true, true⟩ [[]]).failure_count = 1 ∧
    (bulk_add_data ⟨[], true, true⟩ [[]]).error_messages.length =
      (bulk_add_data ⟨[], true, true⟩ [[]]).failure_count :=
  C1_batch_accounting ⟨[], true, true⟩ [[]] rfl rfl

/-- C8: within one non-empty batch call the workbook is loaded exactly once
and a save is attempted at most once, after the loop; when the final success
count is zero no save succeeds and the stored workbook file is unchanged. -/
theorem C8_storage_discipline (env : StorageEnv) (dl : List PyDict) (hne : dl ≠ []) :
    (bulk_add_data env dl).loads = 1 ∧
    (bulk_add_data env dl).saveAttempts ≤ 1 ∧
    ((bulk_add_data env dl).success_count = 0 →
      (bulk_add_data env dl).saves = 0 ∧ (bulk_add_data env dl).stored = env.stored) := by
  cases hl : env.loadOk with
  | false => simp [bulk_add_data, hne, hl]
  | true =>
    by_cases hs : 0 < (bulkLoop env.stored 0 dl).1
    · cases hv : env.saveOk with
      | true =>
        simp [bulk_add_data, hne, hl, hv, hs]
        intro h0
        omega
      | false => simp [bulk_add_data, hne, hl, hv, hs]
    · simp [bulk_add_data, hne, hl, hs]

/-- C8 witness: a one-record batch whose record fails (falsy title): loaded
once, never saved, stored file unchanged. -/
theorem C8_storage_discipline_witness :
    (bulk_add_data ⟨[], true, true⟩ [[("title", PyVal.none)]]).loads = 1 ∧
    (bulk_add_data ⟨[], true, true⟩ [[("title", PyVal.none)]]).saves = 0 ∧
    (bulk_add_data ⟨[], true, true⟩ [[("title", PyVal.none)]]).stored = [] := by
  have h := C8_storage_discipline ⟨[], true, true⟩ [[("title", PyVal.none)]] (by decide)
  have hz := h.2.2 (by decide)
  exact ⟨h.1, hz.1, hz.2⟩

/-- C10: `bulk_add_data` on the empty list returns exactly `(0, 0, [])` and
performs no load, no save attempt, and leaves the stored workbook untouched. -/
theorem C10_bulk_empty (env : StorageEnv) :
    bulk_add_data env [] = ⟨0, 0, [], 0, 0, 0, env.stored⟩ := rfl

end ExcelDataService
